import Mathlib

/-!
Shallow embedding of the lithekod/gamejambot Discord bot (Rust) and proofs
about its state handling, channel management, theme submission and
reaction-driven role assignment.

Identifiers mirror the Rust source (src/state.rs, src/theme.rs,
src/channel.rs, src/reaction.rs, src/utils.rs).  Machine ids (UserId,
ChannelId, MessageId — u64 snowflakes, never arithmetically manipulated)
are modelled as Nat.  Filesystem and Discord-API outcomes are passed in as
explicit parameters, since the Rust code only ever branches on them.
-/

namespace GameJamBot

/-- UserId, ChannelId and MessageId are u64 newtypes; the bot only ever
compares them for equality, so Nat is a faithful model. -/
abbrev Id := Nat

/-- Outcome of `PersistentState::save` (writing state.json): `Except.ok ()`
on success, `Except.error e` with the io error text on failure.  The Rust
code never inspects the error beyond propagating it, so a String suffices. -/
abbrev SaveResult := Except String Unit

/-- Team record stored per creating user (channel.rs, `struct Team`). -/
structure Team where
  game_name : String
  category_id : Id
  text_id : Id
  voice_id : Id
deriving DecidableEq, Repr

/-- Association-list model of `HashMap` lookup (`get` / `contains_key`):
the value bound to the first occurrence of the key, if any. -/
def lookupAL {β : Type} : List (Id × β) → Id → Option β
  | [], _ => none
  | (k', v') :: rest, k => if k' = k then some v' else lookupAL rest k

/-- Association-list model of `HashMap` insert: replaces the value at an
existing key, otherwise appends the new binding. -/
def insertAL {β : Type} (l : List (Id × β)) (k : Id) (v : β) : List (Id × β) :=
  match l with
  | [] => [(k, v)]
  | (k', v') :: rest => if k' = k then (k, v) :: rest else (k', v') :: insertAL rest k v

/-- Association-list model of `HashMap` remove: drops the first binding of
the key (with the no-duplicate-keys invariant, the only one). -/
def removeAL {β : Type} (l : List (Id × β)) (k : Id) : List (Id × β) :=
  match l with
  | [] => []
  | (k', v') :: rest => if k' = k then rest else (k', v') :: removeAL rest k

/-- The `PersistentState` struct of state.rs: the two HashMaps are modelled
as association lists with distinct keys. -/
structure PersistentState where
  theme_ideas : List (Id × String)
  channel_creators : List (Id × Team)
  role_assign_channel_id : Id
  role_assign_message_id : Id
deriving DecidableEq, Repr

/-- Keys of both maps are distinct, as in any HashMap. -/
def PersistentState.WF (st : PersistentState) : Prop :=
  (st.theme_ideas.map Prod.fst).Nodup ∧ (st.channel_creators.map Prod.fst).Nodup

instance (st : PersistentState) : Decidable st.WF := by
  unfold PersistentState.WF; infer_instance

/-- Default-initialised state (state.rs `load`, no file present). -/
def PersistentState.init : PersistentState :=
  { theme_ideas := [], channel_creators := [],
    role_assign_channel_id := 0, role_assign_message_id := 0 }

/-- state.rs `has_created_channel`: membership in `channel_creators`. -/
def has_created_channel (st : PersistentState) (id : Id) : Bool :=
  (lookupAL st.channel_creators id).isSome

/-- state.rs `get_channel_info`: the team of the user, if any. -/
def get_channel_info (st : PersistentState) (id : Id) : Option Team :=
  lookupAL st.channel_creators id

/-- state.rs `register_channel_creation`: inserts the team, then saves; the
save outcome is the returned result and the insert is never rolled back. -/
def register_channel_creation (st : PersistentState) (user_id : Id) (team : Team)
    (save : SaveResult) : PersistentState × SaveResult :=
  ({ st with channel_creators := insertAL st.channel_creators user_id team }, save)

/-- state.rs `remove_channel`: removes the binding, then saves. -/
def remove_channel (st : PersistentState) (user_id : Id)
    (save : SaveResult) : PersistentState × SaveResult :=
  ({ st with channel_creators := removeAL st.channel_creators user_id }, save)

/-- state.rs `set_role_assign`: stores channel and message id, then saves. -/
def set_role_assign (st : PersistentState) (channel_id : Id) (message_id : Id)
    (save : SaveResult) : PersistentState × SaveResult :=
  ({ st with role_assign_channel_id := channel_id,
             role_assign_message_id := message_id }, save)

/-- state.rs `get_role_assign_channel`. -/
def get_role_assign_channel (st : PersistentState) : Id :=
  st.role_assign_channel_id

/-- state.rs `get_role_assign_message`. -/
def get_role_assign_message (st : PersistentState) : Id :=
  st.role_assign_message_id

/-- theme.rs `enum SubmissionResult`. -/
inductive SubmissionResult where
  | done : SubmissionResult
  | alreadySubmitted (previous_submission : String) : SubmissionResult
deriving DecidableEq, Repr

/-- theme.rs `try_add_theme`: replaces any previous idea of the user, saves,
and reports the previous idea if there was one.  The map insert precedes the
save, so a failed save still leaves the new idea in memory. -/
def try_add_theme (st : PersistentState) (user : Id) (idea : String)
    (save : SaveResult) : PersistentState × Except String SubmissionResult :=
  match lookupAL st.theme_ideas user with
  | some previous_submission =>
    ({ st with theme_ideas := insertAL st.theme_ideas user idea },
     match save with
     | .ok _ => .ok (.alreadySubmitted previous_submission)
     | .error e => .error ("Failed to write current themes: " ++ e))
  | none =>
    ({ st with theme_ideas := insertAL st.theme_ideas user idea },
     match save with
     | .ok _ => .ok .done
     | .error e => .error ("Failed to write current themes: " ++ e))

/-- Character class of channel.rs INVALID_REGEX, the pattern matching a
backtick or a pipe (one or more). -/
def invalidChar (c : Char) : Bool :=
  c = Char.ofNat 96 || c = '|'

/-- Semantics of Regex::is_match for a pattern of the shape single
character class followed by plus: the string contains a nonempty run of
class characters, i.e. at least one class character. -/
def charClassPlus_is_match (cls : Char → Bool) (s : String) : Bool :=
  s.data.any cls

/-- channel.rs INVALID_REGEX.is_match, shared by create_team and
handle_rename_channels. -/
def INVALID_REGEX_is_match (s : String) : Bool :=
  charClassPlus_is_match invalidChar s

/-- Character class of channel.rs MARKDOWN_ESCAPE_REGEX.  The source file
contains, between the dot and the double backslash, the three codepoints
U+00E2, U+2039, U+2026 (a mis-encoded dot-operator); they are kept as-is. -/
def markdownEscapeChar (c : Char) : Bool :=
  c = '-' || c = '_' || c = '+' || c = '*' || c = '\"' || c = '#' || c = '=' ||
  c = '.' || c = Char.ofNat 226 || c = Char.ofNat 8249 || c = Char.ofNat 8230 ||
  c = '\\' || c = '<' || c = '>' || c = Char.ofNat 123 || c = Char.ofNat 125

/-- Helper for replace_all of MARKDOWN_ESCAPE_REGEX: the Boolean records
whether the previous character belonged to the current run of class
characters (a backslash is emitted only at the start of a run). -/
def mdReplaceAllAux : List Char → Bool → List Char
  | [], _ => []
  | c :: rest, inRun =>
    if markdownEscapeChar c then
      (if inRun then [c] else [Char.ofNat 92, c]) ++ mdReplaceAllAux rest true
    else c :: mdReplaceAllAux rest false

/-- replace_all of MARKDOWN_ESCAPE_REGEX: each maximal run of class
characters is replaced by a backslash followed by the run itself
(channel.rs to_markdown_safe closure, format backslash plus capture). -/
def mdReplaceAll (s : List Char) : List Char :=
  mdReplaceAllAux s false

/-- channel.rs to_markdown_safe. -/
def to_markdown_safe (name : String) : String :=
  ⟨mdReplaceAll name.data⟩

/-- channel.rs enum ChannelCreationError, validation constructors (the
API-failure constructors carry a Discord error and can only arise after
validation has passed, which is all the proofs below need). -/
inductive ChannelCreationError where
  | alreadyCreated (user : Id)
  | noName
  | invalidName
deriving DecidableEq, Repr

/-- Validation prefix of channel.rs create_team (lines 363 to 374): the
checks performed, in source order, before any Discord API call is made.
Returns the error the function would short-circuit with, if any. -/
def create_team_validation (st : PersistentState) (rest_command : List String)
    (user : Id) : Option ChannelCreationError :=
  if has_created_channel st user then some (.alreadyCreated user)
  else
    let game_name := String.intercalate " " rest_command
    if rest_command.length = 0 then some .noName
    else if INVALID_REGEX_is_match game_name then some .invalidName
    else none

/-- External Discord HTTP calls issued by the channel handlers, in issue
order. -/
inductive ExtCall where
  | updateChannel (id : Id)
  | deleteChannel (id : Id)
deriving DecidableEq, Repr

/-- Outcome of http.delete_channel or http.update_channel as the handlers
observe it: the code only pattern-matches the guild-category payload (with
its name and id) as success and treats everything else alike. -/
inductive ApiChannelOutcome where
  | category (name : String) (id : Id)
  | other
deriving DecidableEq, Repr

/-- channel.rs list_strings: comma-separated with a final "and". -/
def list_strings (strings : List String) : String :=
  (List.range strings.length).foldl
    (fun result i =>
      let sep :=
        if i > 0 then (if i = strings.length - 1 then " and " else ", ") else ""
      result ++ sep ++ strings.getD i "") ""

instance : Inhabited Team :=
  ⟨{ game_name := "", category_id := 0, text_id := 0, voice_id := 0 }⟩

/-- channel.rs handle_remove_channels from line 266, after the organizer
check has passed and the user mention has been parsed to user_id.  The
three delete-call outcomes and the save outcome of remove_channel are
parameters.  Returns the new state, the trace of external delete calls in
issue order, and the reply message. -/
def handle_remove_channels (st : PersistentState) (user_id : Id)
    (deleteText deleteVoice deleteCategory : ApiChannelOutcome)
    (save : SaveResult) : PersistentState × List ExtCall × String :=
  if !(has_created_channel st user_id) then
    (st, [], "That user does not have any team channels.")
  else
    let team := (get_channel_info st user_id).get!
    let calls : List ExtCall :=
      [.deleteChannel team.text_id, .deleteChannel team.voice_id,
       .deleteChannel team.category_id]
    let (oks1, errs1) :=
      match deleteText with
      | .category name _ => (["text channel **#" ++ name ++ "**"], ([] : List String))
      | .other => ([], ["text channel"])
    let (oks2, errs2) :=
      match deleteVoice with
      | .category name _ => (oks1 ++ ["voice channel **" ++ name ++ "**"], errs1)
      | .other => (oks1, errs1 ++ ["voice channel"])
    let (oks, errs) :=
      match deleteCategory with
      | .category name _ => (("category **" ++ name ++ "**") :: oks2, errs2)
      | .other => (oks2, "category" :: errs2)
    let st' := (remove_channel st user_id save).1
    let message :=
      if oks.length > 0 then
        if errs.length > 0 then
          let have_has := if errs.length > 1 then "have" else "has"
          "Removed " ++ list_strings oks ++ " for the game **" ++ team.game_name ++
            "** but its " ++ list_strings errs ++ " " ++ have_has ++
            " already been removed."
        else
          "Removed " ++ list_strings oks ++ " for the game **" ++ team.game_name ++ "**."
      else
        "Category, text channel and voice channel for the game **" ++ team.game_name ++
          "** have already been removed."
    (st', calls, message)

/-- channel.rs handle_rename_channels from line 128, after assert_is_jam
has passed.  The three update-call outcomes and the save outcome of
register_channel_creation are parameters.  Returns the new state, the
trace of external update calls in issue order, and either the reply
messages or the propagated save error. -/
def handle_rename_channels (st : PersistentState) (rest_command : List String)
    (user_id : Id) (updateCategory updateText updateVoice : ApiChannelOutcome)
    (save : SaveResult) : PersistentState × List ExtCall × Except String (List String) :=
  if rest_command.length > 0 then
    let new_name := String.intercalate " " rest_command
    if INVALID_REGEX_is_match new_name then
      (st, [], .ok ["Game names cannot contain the characters ` or |"])
    else if !(has_created_channel st user_id) then
      (st, [], .ok ["You have not created a channel yet.\nTry using `!createchannels <game name>` instead."])
    else
      let team0 := (get_channel_info st user_id).get!
      let team := { team0 with game_name := to_markdown_safe new_name }
      let (st1, saveRes) := register_channel_creation st user_id team save
      match saveRes with
      | .error e => (st1, [], .error e)
      | .ok _ =>
        let calls : List ExtCall :=
          [.updateChannel team.category_id, .updateChannel team.text_id,
           .updateChannel team.voice_id]
        let (oks1, errs1) :=
          match updateCategory with
          | .category name _ => (["category to **" ++ name ++ "**"], ([] : List String))
          | .other => ([], ["category"])
        let (oks2, errs2) :=
          match updateText with
          | .category name i =>
            (oks1 ++ ["text channel to **#" ++ name ++ "** (found here: <#" ++
              toString i ++ ">)"], errs1)
          | .other => (oks1, errs1 ++ ["text channel"])
        let (oks, errs) :=
          match updateVoice with
          | .category name _ => (oks2 ++ ["voice channel to **" ++ name ++ "**"], errs2)
          | .other => (oks2, errs2 ++ ["voice channel"])
        let message :=
          if oks.length > 0 then
            if errs.length > 0 then
              let have_has := if errs.length > 1 then "have" else "has"
              "Renamed " ++ list_strings oks ++ " for your game **" ++ team.game_name ++
                "** but its " ++ list_strings errs ++ " " ++ have_has ++
                " been removed, it seems."
            else
              "Renamed " ++ list_strings oks ++ " for your game **" ++ team.game_name ++ "**."
          else
            "Category, text channel and voice channel for your game **" ++ team.game_name ++
              "** have been removed, it seems."
        (st1, calls, .ok [message])
  else
    (st, [], .ok [])

/-- Rust char::is_ascii_whitespace: space, horizontal tab, line feed, form
feed, carriage return. -/
def is_ascii_whitespace (c : Char) : Bool :=
  c = ' ' || c = '\t' || c = '\n' || c = Char.ofNat 12 || c = '\r'

/-- Helper for counting the tokens of str::split_ascii_whitespace: the
Boolean records whether the previous character belonged to a token. -/
def countTokensAux : List Char → Bool → Nat
  | [], _ => 0
  | c :: rest, inToken =>
    if is_ascii_whitespace c then countTokensAux rest false
    else (if inToken then 0 else 1) + countTokensAux rest true

/-- Number of items yielded by str::split_ascii_whitespace: the count of
maximal runs of non-whitespace characters. -/
def split_ascii_whitespace_count (s : String) : Nat :=
  countTokensAux s.data false

/-- theme.rs handle_add_theme: checks that the message content is a single
word before calling try_add_theme; the save outcome is a parameter.
Returns the new state and either the reply-message contents in send order
or the propagated error. -/
def handle_add_theme (st : PersistentState) (author : Id) (content : String)
    (save : SaveResult) : PersistentState × Except String (List String) :=
  if split_ascii_whitespace_count content ≠ 1 then
    (st, .ok ["Themes ideas should only be a single word."])
  else
    let (st', res) := try_add_theme st author content save
    match res with
    | .error e => (st', .error ("Failed to save theme: " ++ e))
    | .ok .done =>
      (st', .ok ["Theme idea \"" ++ content ++ "\" registered, thanks!"])
    | .ok (.alreadySubmitted previous_submission) =>
      (st', .ok ["You can only submit one idea.\nTheme idea \"" ++ content ++
        "\" registered, replacing your previous submission \"" ++
        previous_submission ++ "\"."])

/-- IteratorRandom::choose_multiple with amount 2: when the iterator holds
at most two values they are all returned (in iteration order); otherwise
the rng picks two, modelled by the choice function. -/
def choose_multiple_two (choice : List String → List String)
    (values : List String) : List String :=
  if values.length ≤ 2 then values else choice values

/-- theme.rs do_theme_generation, with the effect of the rng split into
the selection made by choose_multiple and the shuffle applied to the
selection (SliceRandom::shuffle, a permutation). -/
def do_theme_generation (st : PersistentState)
    (choice : List String → List String)
    (shuffle : List String → List String) : String :=
  let values := st.theme_ideas.map Prod.snd
  let selected := shuffle (choose_multiple_two choice values)
  if selected.length ≠ 2 then
    "Not enough ideas have been submitted yet."
  else
    "The theme is: " ++ selected.getD 0 "" ++ " " ++ selected.getD 1 ""

/-- Outcome of http.create_message as utils.rs send_message matches it:
a client-side response error (whose body may itself be unavailable), any
other error, or success. -/
inductive CreateMessageOutcome where
  | success
  | clientErrorResponse (text : Option String)
  | unknownError (desc : String)
deriving DecidableEq, Repr

/-- utils.rs send_message: any error from create_message is only printed;
the function returns Ok in every case.  The returned list is the log
output. -/
def send_message (outcome : CreateMessageOutcome) :
    List String × Except String Unit :=
  let context := "send_message"
  match outcome with
  | .clientErrorResponse t =>
    ([context ++ ": The response was a client side error: " ++
      (match t with
       | some text => text
       | none => "(Response unavailable)")], .ok ())
  | .unknownError e =>
    ([context ++ ": The response was an unknown error: " ++ e], .ok ())
  | .success => ([], .ok ())

/-- Role-name constants imported from the roles module (the file itself is
not under src; the values shown are the display names listed by the
allow-list message in main.rs line 682, and no proof below depends on
them). -/
def PROGRAMMER : String := "Programmer"

def ARTIST_2D : String := "2D Artist"

def ARTIST_3D : String := "3D Artist"

def SOUND_DESIGNER : String := "Sound Designer"

def MUSICIAN : String := "Musician"

def IDEA_GUY : String := "Idea Guy"

def BOARD_GAMES : String := "Board Games"

/-- reaction.rs emoji_to_role: the fixed emoji to role-name table. -/
def emoji_to_role (emoji : String) : Option String :=
  if emoji = "💻" then some PROGRAMMER
  else if emoji = "🎨" then some ARTIST_2D
  else if emoji = "🗿" then some ARTIST_3D
  else if emoji = "🔊" then some SOUND_DESIGNER
  else if emoji = "🎵" then some MUSICIAN
  else if emoji = "💡" then some IDEA_GUY
  else if emoji = "🎲" then some BOARD_GAMES
  else none

/-- twilight ReactionType as reaction.rs matches it: a unicode emoji with
its name, or any other (custom) emoji. -/
inductive ReactionType where
  | unicode (name : String)
  | other
deriving DecidableEq, Repr

/-- Fields of a twilight Reaction event the handlers read. -/
structure Reaction where
  channel_id : Id
  message_id : Id
  guild_id : Id
  user_id : Id
  emoji : ReactionType
deriving DecidableEq, Repr

/-- External role calls the reaction handlers can issue. -/
inductive RoleCall where
  | setRole (guild : Id) (user : Id) (role_name : String)
  | removeRole (guild : Id) (user : Id) (role_name : String)
deriving DecidableEq, Repr

/-- reaction.rs handle_add_role: on the tracked role-assignment message,
reactors other than the bot itself with a mapped unicode emoji trigger a
set_role call; the call outcome is only logged. -/
def handle_add_role (st : PersistentState) (reaction : Reaction)
    (current_user_id : Id) : List RoleCall :=
  if reaction.channel_id = get_role_assign_channel st ∧
      reaction.message_id = get_role_assign_message st then
    if reaction.user_id ≠ current_user_id then
      match reaction.emoji with
      | .unicode name =>
        match emoji_to_role name with
        | some role_name => [.setRole reaction.guild_id reaction.user_id role_name]
        | none => []
      | .other => []
    else []
  else []

/-- reaction.rs handle_remove_role: on the tracked role-assignment
message, any reactor with a mapped unicode emoji triggers a remove_role
call; unlike the add path, the reactor is not compared against the bot
itself. -/
def handle_remove_role (st : PersistentState) (reaction : Reaction) :
    List RoleCall :=
  if reaction.channel_id = get_role_assign_channel st ∧
      reaction.message_id = get_role_assign_message st then
    match reaction.emoji with
    | .unicode name =>
      match emoji_to_role name with
      | some role_name => [.removeRole reaction.guild_id reaction.user_id role_name]
      | none => []
    | .other => []
  else []

/-- Repeated theme submissions by one user, each with a successful save:
the in-memory state after calling try_add_theme once per idea in order. -/
def submitSeq (st : PersistentState) (user : Id) (ideas : List String) :
    PersistentState :=
  ideas.foldl (fun s i => (try_add_theme s user i (.ok ())).1) st

lemma lookupAL_insertAL_self {β : Type} (l : List (Id × β)) (k : Id) (v : β) :
    lookupAL (insertAL l k v) k = some v := by
  induction l with
  | nil => simp [insertAL, lookupAL]
  | cons p rest ih =>
    obtain ⟨k1, v1⟩ := p
    by_cases h : k1 = k
    · simp [insertAL, h, lookupAL]
    · simp [insertAL, h, lookupAL, ih]

lemma lookupAL_eq_none_of_not_mem {β : Type} (l : List (Id × β)) (k : Id)
    (h : k ∉ l.map Prod.fst) : lookupAL l k = none := by
  induction l with
  | nil => simp [lookupAL]
  | cons p rest ih =>
    obtain ⟨k1, v1⟩ := p
    simp only [List.map_cons, List.mem_cons] at h
    push_neg at h
    have h1 : ¬ k1 = k := fun hk => h.1 hk.symm
    simp [lookupAL, h1, ih h.2]

lemma lookupAL_removeAL_self {β : Type} (l : List (Id × β)) (k : Id)
    (h : (l.map Prod.fst).Nodup) : lookupAL (removeAL l k) k = none := by
  induction l with
  | nil => simp [removeAL, lookupAL]
  | cons p rest ih =>
    obtain ⟨k1, v1⟩ := p
    simp only [List.map_cons, List.nodup_cons] at h
    by_cases hk : k1 = k
    · subst hk
      simpa [removeAL] using lookupAL_eq_none_of_not_mem rest k1 h.1
    · simp [removeAL, hk, lookupAL, ih h.2]

lemma insertAL_cons_eq {β : Type} (rest : List (Id × β)) (k : Id) (v1 v : β) :
    insertAL ((k, v1) :: rest) k v = (k, v) :: rest := by
  simp [insertAL]

lemma insertAL_cons_ne {β : Type} (rest : List (Id × β)) (k1 k : Id) (v1 v : β)
    (h : k1 ≠ k) : insertAL ((k1, v1) :: rest) k v = (k1, v1) :: insertAL rest k v := by
  simp [insertAL, h]

lemma mem_map_fst_insertAL {β : Type} (l : List (Id × β)) (k x : Id) (v : β) :
    x ∈ (insertAL l k v).map Prod.fst ↔ x = k ∨ x ∈ l.map Prod.fst := by
  induction l with
  | nil => simp [insertAL]
  | cons p rest ih =>
    obtain ⟨k1, v1⟩ := p
    by_cases hk : k1 = k
    · subst hk
      rw [insertAL_cons_eq]
      simp only [List.map_cons, List.mem_cons]
      tauto
    · rw [insertAL_cons_ne rest k1 k v1 v hk]
      simp only [List.map_cons, List.mem_cons, ih]
      tauto

lemma map_fst_insertAL_nodup {β : Type} (l : List (Id × β)) (k : Id) (v : β)
    (h : (l.map Prod.fst).Nodup) : ((insertAL l k v).map Prod.fst).Nodup := by
  induction l with
  | nil => simp [insertAL]
  | cons p rest ih =>
    obtain ⟨k1, v1⟩ := p
    simp only [List.map_cons, List.nodup_cons] at h
    by_cases hk : k1 = k
    · subst hk
      simpa [insertAL, List.nodup_cons] using h
    · have hmem : k1 ∉ (insertAL rest k v).map Prod.fst := by
        rw [mem_map_fst_insertAL]
        push_neg
        exact ⟨hk, h.1⟩
      simp [insertAL, hk, List.nodup_cons, hmem, ih h.2]

lemma count_insertAL_self {β : Type} (l : List (Id × β)) (k : Id) (v : β)
    (h : (l.map Prod.fst).Nodup) :
    ((insertAL l k v).map Prod.fst).count k = 1 := by
  induction l with
  | nil => simp [insertAL]
  | cons p rest ih =>
    obtain ⟨k1, v1⟩ := p
    simp only [List.map_cons, List.nodup_cons] at h
    by_cases hk : k1 = k
    · subst hk
      simp [insertAL, List.count_cons_self, List.count_eq_zero.mpr h.1]
    · simp [insertAL, hk, List.count_cons_of_ne (fun hkk => hk hkk.symm) , ih h.2]

lemma try_add_theme_fst (st : PersistentState) (user : Id) (idea : String)
    (save : SaveResult) :
    (try_add_theme st user idea save).1 =
      { st with theme_ideas := insertAL st.theme_ideas user idea } := by
  cases h : lookupAL st.theme_ideas user <;> simp [try_add_theme, h]

lemma submitSeq_spec (user : Id) (ideas : List String) :
    ∀ (hne : ideas ≠ []) (st : PersistentState),
      (st.theme_ideas.map Prod.fst).Nodup →
      lookupAL (submitSeq st user ideas).theme_ideas user = some (ideas.getLast hne) ∧
      ((submitSeq st user ideas).theme_ideas.map Prod.fst).count user = 1 := by
  induction ideas with
  | nil => intro hne; exact absurd rfl hne
  | cons i rest ih =>
    intro hne st hw
    by_cases hr : rest = []
    · subst hr
      have hst : submitSeq st user [i] = (try_add_theme st user i (.ok ())).1 := rfl
      rw [hst, try_add_theme_fst]
      refine ⟨?_, count_insertAL_self _ _ _ hw⟩
      simp [List.getLast, lookupAL_insertAL_self]
    · have hst : submitSeq st user (i :: rest) =
          submitSeq ((try_add_theme st user i (.ok ())).1) user rest := rfl
      rw [hst]
      have hw2 : ((try_add_theme st user i (.ok ())).1.theme_ideas.map Prod.fst).Nodup := by
        rw [try_add_theme_fst]
        exact map_fst_insertAL_nodup _ _ _ hw
      have hmain := ih hr ((try_add_theme st user i (.ok ())).1) hw2
      rw [List.getLast_cons hr]
      exact hmain

lemma perm_pair {α : Type} {l : List α} {a b : α} (h : l.Perm [a, b]) :
    l = [a, b] ∨ l = [b, a] := by
  obtain ⟨x, y, rfl⟩ := List.length_eq_two.mp h.length_eq
  have hx : x ∈ [a, b] := h.subset (by simp)
  rcases List.mem_pair.mp hx with rfl | rfl
  · have h2 : [y].Perm [b] := h.cons_inv
    exact Or.inl (by rw [List.perm_singleton.mp h2])
  · have h2 : [y].Perm [a] := (h.trans (List.Perm.swap x a [])).cons_inv
    exact Or.inr (by rw [List.perm_singleton.mp h2])

/-- C1: for every mutating store operation (register_channel_creation,
remove_channel, set_role_assign, try_add_theme), if the disk save fails
the operation returns the error but the in-memory mutation is kept: a
subsequent read in the same process (has_created_channel,
get_channel_info, the theme_ideas map) observes the new value, not the
pre-call value. -/
theorem save_failure_keeps_in_memory_mutation
    (st : PersistentState) (user : Id) (team : Team) (ch msg : Id)
    (idea e : String) (hw : st.WF) :
    ((register_channel_creation st user team (.error e)).2 = .error e ∧
      has_created_channel (register_channel_creation st user team (.error e)).1 user = true ∧
      get_channel_info (register_channel_creation st user team (.error e)).1 user = some team) ∧
    ((remove_channel st user (.error e)).2 = .error e ∧
      has_created_channel (remove_channel st user (.error e)).1 user = false) ∧
    ((set_role_assign st ch msg (.error e)).2 = .error e ∧
      get_role_assign_channel (set_role_assign st ch msg (.error e)).1 = ch ∧
      get_role_assign_message (set_role_assign st ch msg (.error e)).1 = msg) ∧
    ((try_add_theme st user idea (.error e)).2 =
        .error ("Failed to write current themes: " ++ e) ∧
      lookupAL (try_add_theme st user idea (.error e)).1.theme_ideas user = some idea) := by
  refine ⟨⟨rfl, ?_, ?_⟩, ⟨rfl, ?_⟩, ⟨rfl, rfl, rfl⟩, ?_, ?_⟩
  · simp [has_created_channel, register_channel_creation, lookupAL_insertAL_self]
  · simp [get_channel_info, register_channel_creation, lookupAL_insertAL_self]
  · simp [has_created_channel, remove_channel, lookupAL_removeAL_self _ _ hw.2]
  · cases h : lookupAL st.theme_ideas user <;> simp [try_add_theme, h]
  · cases h : lookupAL st.theme_ideas user <;>
      simp [try_add_theme, h, lookupAL_insertAL_self]

/-- Witness for C1 at a concrete input: registering a team with a failing
save still makes has_created_channel report true. -/
theorem save_failure_keeps_in_memory_mutation_witness :
    has_created_channel (register_channel_creation PersistentState.init 1
      { game_name := "g", category_id := 4, text_id := 5, voice_id := 6 }
      (.error "boom")).1 1 = true :=
  (save_failure_keeps_in_memory_mutation PersistentState.init 1
    { game_name := "g", category_id := 4, text_id := 5, voice_id := 6 }
    2 3 "idea" "boom" (by decide)).1.2.1

/-- C2: in handle_remove_channels, for every target user with an existing
team, the three external delete calls are issued with the category deleted
last (after the text and voice channels), and the team record is then
unregistered unconditionally, so has_created_channel of the user is false
after the handler returns even if all three external deletions fail. -/
theorem remove_channels_category_last_unregisters
    (st : PersistentState) (user_id : Id) (dT dV dC : ApiChannelOutcome)
    (save : SaveResult) (hw : st.WF)
    (h : has_created_channel st user_id = true) :
    (handle_remove_channels st user_id dT dV dC save).2.1 =
      [.deleteChannel ((get_channel_info st user_id).get!).text_id,
       .deleteChannel ((get_channel_info st user_id).get!).voice_id,
       .deleteChannel ((get_channel_info st user_id).get!).category_id] ∧
    ((handle_remove_channels st user_id dT dV dC save).2.1).getLast? =
      some (.deleteChannel ((get_channel_info st user_id).get!).category_id) ∧
    has_created_channel (handle_remove_channels st user_id dT dV dC save).1 user_id = false := by
  have h2 : (lookupAL st.channel_creators user_id).isSome = true := h
  cases dT <;> cases dV <;> cases dC <;>
    simp [handle_remove_channels, h, h2, remove_channel, has_created_channel,
      get_channel_info, lookupAL_removeAL_self _ _ hw.2]

/-- Witness for C2 at a concrete input: a state with one registered team,
all three deletions failing, reports no team afterwards. -/
theorem remove_channels_category_last_unregisters_witness :
    has_created_channel
      (handle_remove_channels
        { theme_ideas := [], channel_creators :=
            [(1, { game_name := "g", category_id := 4, text_id := 5, voice_id := 6 })],
          role_assign_channel_id := 0, role_assign_message_id := 0 }
        1 .other .other .other (.ok ())).1 1 = false :=
  (remove_channels_category_last_unregisters
    { theme_ideas := [], channel_creators :=
        [(1, { game_name := "g", category_id := 4, text_id := 5, voice_id := 6 })],
      role_assign_channel_id := 0, role_assign_message_id := 0 }
    1 .other .other .other (.ok ()) (by decide) (by decide)).2.2

/-- C3: for every user and every sequence of theme submissions by that
user, try_add_theme stores exactly one idea per user (the latest), and a
resubmission returns AlreadySubmitted carrying exactly the immediately
preceding stored idea, never an older one; a first submission returns
Done. -/
theorem try_add_theme_latest_only
    (st0 : PersistentState) (user : Id)
    (hw : (st0.theme_ideas.map Prod.fst).Nodup)
    (h0 : lookupAL st0.theme_ideas user = none)
    (ideas : List String) (hne : ideas ≠ []) (next : String) :
    (try_add_theme st0 user (ideas.head hne) (.ok ())).2 = .ok .done ∧
    ((submitSeq st0 user ideas).theme_ideas.map Prod.fst).count user = 1 ∧
    lookupAL (submitSeq st0 user ideas).theme_ideas user = some (ideas.getLast hne) ∧
    (try_add_theme (submitSeq st0 user ideas) user next (.ok ())).2 =
      .ok (.alreadySubmitted (ideas.getLast hne)) := by
  obtain ⟨hlast, hcount⟩ := submitSeq_spec user ideas hne st0 hw
  refine ⟨?_, hcount, hlast, ?_⟩
  · simp [try_add_theme, h0]
  · simp [try_add_theme, hlast]

/-- Witness for C3 at a concrete input: after submitting two ideas, the
map holds the latest and the next submission reports it as the previous
one. -/
theorem try_add_theme_latest_only_witness :
    lookupAL (submitSeq PersistentState.init 0 ["alpha", "beta"]).theme_ideas 0 =
      some "beta" ∧
    (try_add_theme (submitSeq PersistentState.init 0 ["alpha", "beta"]) 0 "gamma"
      (.ok ())).2 = .ok (.alreadySubmitted "beta") :=
  ⟨(try_add_theme_latest_only PersistentState.init 0 (by decide) (by decide)
      ["alpha", "beta"] (by decide) "gamma").2.2.1,
   (try_add_theme_latest_only PersistentState.init 0 (by decide) (by decide)
      ["alpha", "beta"] (by decide) "gamma").2.2.2⟩

/-- C4: the INVALID_REGEX check used by create_team (and shared with
handle_rename_channels) rejects a name with the InvalidName error exactly
when the name contains a backtick or a pipe character, and validation
passes exactly when it contains neither. -/
theorem channel_name_validation_iff
    (st : PersistentState) (rest_command : List String) (user : Id)
    (h1 : has_created_channel st user = false) (h2 : rest_command ≠ []) :
    (create_team_validation st rest_command user = some .invalidName ↔
      ∃ c ∈ (String.intercalate " " rest_command).data,
        c = Char.ofNat 96 ∨ c = '|') ∧
    (create_team_validation st rest_command user = none ↔
      ¬∃ c ∈ (String.intercalate " " rest_command).data,
        c = Char.ofNat 96 ∨ c = '|') := by
  have hlen : ¬ rest_command.length = 0 := by
    simpa [List.length_eq_zero] using h2
  have hiff : INVALID_REGEX_is_match (String.intercalate " " rest_command) = true ↔
      ∃ c ∈ (String.intercalate " " rest_command).data,
        c = Char.ofNat 96 ∨ c = '|' := by
    simp [INVALID_REGEX_is_match, charClassPlus_is_match, invalidChar,
      List.any_eq_true]
  cases hm : INVALID_REGEX_is_match (String.intercalate " " rest_command) with
  | true =>
    simp only [create_team_validation, h1, Bool.false_eq_true, if_false, hlen,
      hm, if_true]
    simp [← hiff, hm]
  | false =>
    simp only [create_team_validation, h1, Bool.false_eq_true, if_false, hlen,
      hm, if_true]
    simp [← hiff, hm]

/-- Witness for C4 at concrete inputs: a name with a pipe is rejected as
invalid. -/
theorem channel_name_validation_iff_witness :
    create_team_validation PersistentState.init ["a|b"] 5 = some .invalidName :=
  (channel_name_validation_iff PersistentState.init ["a|b"] 5 (by decide)
    (by decide)).1.mpr (by decide)

/-- C5: do_theme_generation returns the not-enough-ideas message whenever
fewer than two theme ideas are stored, and when exactly two ideas are
stored its output message contains both stored ideas, in some order.  The
shuffle is an arbitrary permutation, as SliceRandom guarantees. -/
theorem theme_generation_two_ideas
    (st : PersistentState) (choice shuffle : List String → List String)
    (hshuffle : ∀ l, (shuffle l).Perm l) :
    (st.theme_ideas.length < 2 →
      do_theme_generation st choice shuffle =
        "Not enough ideas have been submitted yet.") ∧
    (∀ u1 u2 a b, st.theme_ideas = [(u1, a), (u2, b)] →
      do_theme_generation st choice shuffle = "The theme is: " ++ a ++ " " ++ b ∨
      do_theme_generation st choice shuffle = "The theme is: " ++ b ++ " " ++ a) := by
  constructor
  · intro hlt
    have hlen : (st.theme_ideas.map Prod.snd).length ≤ 2 := by
      simp only [List.length_map]
      omega
    have hsel := (hshuffle (st.theme_ideas.map Prod.snd)).length_eq
    simp only [do_theme_generation, choose_multiple_two, if_pos hlen]
    rw [if_pos]
    rw [hsel]
    simp only [List.length_map]
    omega
  · intro u1 u2 a b hst
    have hlen : (st.theme_ideas.map Prod.snd).length ≤ 2 := by
      simp [hst]
    have hperm : (shuffle (st.theme_ideas.map Prod.snd)).Perm [a, b] := by
      rw [hst] at *
      simpa using hshuffle [a, b]
    rcases perm_pair hperm with hcase | hcase
    · left
      rw [hst] at hcase
      simp only [List.map_cons, List.map_nil] at hcase
      simp [do_theme_generation, choose_multiple_two, hst, hcase]
    · right
      rw [hst] at hcase
      simp only [List.map_cons, List.map_nil] at hcase
      simp [do_theme_generation, choose_multiple_two, hst, hcase]

/-- Witness for C5 at a concrete input: with exactly the ideas x and y
stored and the identity shuffle, the output names both. -/
theorem theme_generation_two_ideas_witness :
    do_theme_generation
      { theme_ideas := [(1, "x"), (2, "y")], channel_creators := [],
        role_assign_channel_id := 0, role_assign_message_id := 0 }
      id id = "The theme is: x y" ∨
    do_theme_generation
      { theme_ideas := [(1, "x"), (2, "y")], channel_creators := [],
        role_assign_channel_id := 0, role_assign_message_id := 0 }
      id id = "The theme is: y x" :=
  (theme_generation_two_ideas
    { theme_ideas := [(1, "x"), (2, "y")], channel_creators := [],
      role_assign_channel_id := 0, role_assign_message_id := 0 }
    id id (fun l => List.Perm.refl l)).2 1 2 "x" "y" rfl

/-- C6: for every message content whose ASCII-whitespace token count is
more than one, handle_add_theme rejects the submission with the
single-word notice and leaves the state unchanged, so the stored
theme_ideas map is unchanged; contents are stored only when they are
exactly one token. -/
theorem add_theme_rejects_multiword
    (st : PersistentState) (author : Id) (content content2 : String)
    (save save2 : SaveResult)
    (h : 1 < split_ascii_whitespace_count content) :
    handle_add_theme st author content save =
      (st, .ok ["Themes ideas should only be a single word."]) ∧
    ((handle_add_theme st author content2 save2).1.theme_ideas ≠ st.theme_ideas →
      split_ascii_whitespace_count content2 = 1) := by
  constructor
  · have hne : split_ascii_whitespace_count content ≠ 1 := by omega
    simp [handle_add_theme, hne]
  · intro hchanged
    by_contra hc
    exact hchanged (by simp [handle_add_theme, hc])

/-- Witness for C6 at a concrete input: a two-word submission is rejected
and stores nothing. -/
theorem add_theme_rejects_multiword_witness :
    handle_add_theme PersistentState.init 1 "two words" (.ok ()) =
      (PersistentState.init, .ok ["Themes ideas should only be a single word."]) :=
  (add_theme_rejects_multiword PersistentState.init 1 "two words" "z"
    (.ok ()) (.ok ()) (by decide)).1

/-- C7 counterexample: on the remove path the reactor is never compared
against the bot itself, so a remove-reaction by the bot (its own user id,
here 7) on the tracked message with a mapped emoji does issue a revoke
call, contradicting the claim that own reactions are ignored on both
paths. -/
theorem own_reaction_remove_counterexample :
    handle_remove_role PersistentState.init
      { channel_id := 0, message_id := 0, guild_id := 5, user_id := 7,
        emoji := .unicode "💻" } =
      [.removeRole 5 7 PROGRAMMER] := by
  decide

/-- C7 as amended: an emoji outside the fixed table triggers no role call
on either path, and the reactor being the bot itself suppresses the call
on the add path only. -/
theorem reaction_unmapped_and_own_filtered
    (st : PersistentState) (r : Reaction) (bot : Id) :
    ((∀ name, r.emoji = ReactionType.unicode name → emoji_to_role name = none) →
      handle_add_role st r bot = [] ∧ handle_remove_role st r = []) ∧
    (r.user_id = bot → handle_add_role st r bot = []) := by
  constructor
  · intro hun
    by_cases htracked : r.channel_id = get_role_assign_channel st ∧
        r.message_id = get_role_assign_message st
    · cases hr : r.emoji with
      | unicode name =>
        have hnone := hun name hr
        constructor <;>
          simp [handle_add_role, handle_remove_role, if_pos htracked, hr, hnone]
      | other =>
        constructor <;>
          simp [handle_add_role, handle_remove_role, if_pos htracked, hr]
    · constructor <;>
        simp [handle_add_role, handle_remove_role, if_neg htracked]
  · intro hbot
    by_cases htracked : r.channel_id = get_role_assign_channel st ∧
        r.message_id = get_role_assign_message st
    · simp [handle_add_role, if_pos htracked, hbot]
    · simp [handle_add_role, if_neg htracked]

/-- Witness for the amended C7 at a concrete input: an unmapped emoji
yields no call on either path, and an add-reaction by the bot itself
yields no call. -/
theorem reaction_unmapped_and_own_filtered_witness :
    (handle_add_role PersistentState.init
        { channel_id := 0, message_id := 0, guild_id := 5, user_id := 3,
          emoji := .unicode "xx" } 3 = [] ∧
      handle_remove_role PersistentState.init
        { channel_id := 0, message_id := 0, guild_id := 5, user_id := 3,
          emoji := .unicode "xx" } = []) ∧
    handle_add_role PersistentState.init
      { channel_id := 0, message_id := 0, guild_id := 5, user_id := 3,
        emoji := .unicode "xx" } 3 = [] :=
  ⟨(reaction_unmapped_and_own_filtered PersistentState.init
      { channel_id := 0, message_id := 0, guild_id := 5, user_id := 3,
        emoji := .unicode "xx" } 3).1
      (by
        intro name hname
        cases hname
        decide),
   (reaction_unmapped_and_own_filtered PersistentState.init
      { channel_id := 0, message_id := 0, guild_id := 5, user_id := 3,
        emoji := .unicode "xx" } 3).2 rfl⟩

/-- C8: to_markdown_safe is not idempotent: there is an input string whose
second escape differs from its first (the inserted backslash gets escaped
again). -/
theorem to_markdown_safe_not_idempotent :
    ∃ s : String, to_markdown_safe (to_markdown_safe s) ≠ to_markdown_safe s :=
  ⟨".", by decide⟩

/-- C9: in handle_rename_channels, for every caller with an existing team
and a valid non-empty new name, the stored record after the handler has
game_name equal to the markdown-escaped new name regardless of the
outcomes of the three external update calls and of the save, while
category_id, text_id and voice_id are unchanged from the prior record. -/
theorem rename_updates_record_before_api
    (st : PersistentState) (rest_command : List String) (user : Id)
    (uc ut uv : ApiChannelOutcome) (save : SaveResult) (team0 : Team)
    (hne : rest_command.length > 0)
    (hvalid : INVALID_REGEX_is_match (String.intercalate " " rest_command) = false)
    (hteam : get_channel_info st user = some team0) :
    get_channel_info (handle_rename_channels st rest_command user uc ut uv save).1 user =
      some { game_name := to_markdown_safe (String.intercalate " " rest_command),
             category_id := team0.category_id, text_id := team0.text_id,
             voice_id := team0.voice_id } := by
  have hl : lookupAL st.channel_creators user = some team0 := hteam
  have hhas : has_created_channel st user = true := by
    simp [has_created_channel, hl]
  cases save <;>
    simp [handle_rename_channels, if_pos hne, hvalid, hhas, get_channel_info, hl,
      register_channel_creation, lookupAL_insertAL_self]

/-- Witness for C9 at a concrete input: renaming with all update calls
failing still leaves the escaped new name stored with the old ids. -/
theorem rename_updates_record_before_api_witness :
    get_channel_info
      (handle_rename_channels
        { theme_ideas := [], channel_creators :=
            [(1, { game_name := "old", category_id := 4, text_id := 5, voice_id := 6 })],
          role_assign_channel_id := 0, role_assign_message_id := 0 }
        ["New", "Game"] 1 .other .other .other (.ok ())).1 1 =
      some { game_name := to_markdown_safe (String.intercalate " " ["New", "Game"]),
             category_id := 4, text_id := 5, voice_id := 6 } :=
  rename_updates_record_before_api
    { theme_ideas := [], channel_creators :=
        [(1, { game_name := "old", category_id := 4, text_id := 5, voice_id := 6 })],
      role_assign_channel_id := 0, role_assign_message_id := 0 }
    ["New", "Game"] 1 .other .other .other (.ok ())
    { game_name := "old", category_id := 4, text_id := 5, voice_id := 6 }
    (by decide) (by decide) (by decide)

/-- C10: utils send_message returns Ok for every outcome of the underlying
create-message call; errors are only logged, never propagated. -/
theorem send_message_always_ok (outcome : CreateMessageOutcome) :
    (send_message outcome).2 = .ok () := by
  cases outcome <;> rfl

end GameJamBot
